import Mathlib

/-!
# Verification of the user-lookup microservice (`src/index.ts`)

Shallow embedding of the single-file Express application: the JavaScript
`Number`/`isNaN` conversion used by the REST id parser, the Prisma-backed
storage gateway (`findUnique` / `findMany`), the CORS origin predicate, the
REST handlers for `GET /users/:id` and `GET /users`, the GraphQL resolvers
`user` / `users`, the served OpenAPI response declarations, and the startup
sequence.  Machine numbers handled by the route code are modelled as exact
rationals (only parsing and equality tests occur, never rounding
arithmetic).
-/

/-! ## JavaScript `Number(string)` semantics (ECMA-262 StringToNumber)

The REST handler runs `const id = Number(req.params.id); if (isNaN(id)) ...`.
We model the result of `Number` on a string: `nan`, an infinity, or a finite
value (an exact rational).  The grammar covered: optional surrounding
whitespace, the empty string (which converts to 0), signed decimal literals
with optional fraction and exponent, `Infinity`, and unsigned non-decimal
literals `0x`/`0X`, `0o`/`0O`, `0b`/`0B`.  Everything else is `nan`. -/

inductive JsNum where
  | nan : JsNum
  | inf : JsNum
  | negInf : JsNum
  | fin : ℚ → JsNum
deriving DecidableEq, Repr

def isJsWhitespace (c : Char) : Bool :=
  c = ' ' || c = '\t' || c = '\n' || c = '\r' || c = '\x0b' || c = '\x0c' ||
    c = ' ' || c = '﻿'

def trimJs (s : String) : List Char :=
  ((s.toList.dropWhile isJsWhitespace).reverse.dropWhile isJsWhitespace).reverse

def decDigitVal (c : Char) : Option Nat :=
  if c.isDigit then some (c.toNat - 48) else none

def hexDigitVal (c : Char) : Option Nat :=
  if c.isDigit then some (c.toNat - 48)
  else if 'a' ≤ c ∧ c ≤ 'f' then some (c.toNat - 87)
  else if 'A' ≤ c ∧ c ≤ 'F' then some (c.toNat - 55)
  else none

def octDigitVal (c : Char) : Option Nat :=
  if '0' ≤ c ∧ c ≤ '7' then some (c.toNat - 48) else none

def binDigitVal (c : Char) : Option Nat :=
  if c = '0' then some 0 else if c = '1' then some 1 else none

def digitsValAux (digitVal : Char → Option Nat) (base : Nat) :
    List Char → Nat → Option Nat
  | [], acc => some acc
  | c :: rest, acc =>
    match digitVal c with
    | some d => digitsValAux digitVal base rest (acc * base + d)
    | none => none

/-- Value of a non-empty run of digits in the given base; `none` when the
list is empty or contains a non-digit. -/
def digitsVal (digitVal : Char → Option Nat) (base : Nat) (cs : List Char) :
    Option Nat :=
  match cs with
  | [] => none
  | _ => digitsValAux digitVal base cs 0

/-- Exponent part after the `e`/`E`: optional sign then decimal digits. -/
def parseExponent (cs : List Char) : Option ℤ :=
  match cs with
  | '+' :: rest => (digitsVal decDigitVal 10 rest).map (fun n => (n : ℤ))
  | '-' :: rest => (digitsVal decDigitVal 10 rest).map (fun n => -(n : ℤ))
  | _ => (digitsVal decDigitVal 10 cs).map (fun n => (n : ℤ))

/-- Mantissa: `digits`, `digits '.' digits?`, or `'.' digits`.  The value is
returned as a pair `(m, k)` denoting the exact rational `m / 10 ^ k`. -/
def parseMantissa (cs : List Char) : Option (ℤ × ℕ) :=
  match cs.findIdx? (fun c => c = '.') with
  | none => (digitsVal decDigitVal 10 cs).map (fun n => ((n : ℤ), 0))
  | some i =>
    let intPart := cs.take i
    let fracPart := cs.drop (i + 1)
    match intPart, fracPart with
    | [], [] => none
    | [], f => (digitsVal decDigitVal 10 f).map (fun n => ((n : ℤ), f.length))
    | ip, [] => (digitsVal decDigitVal 10 ip).map (fun n => ((n : ℤ), 0))
    | ip, f =>
      match digitsVal decDigitVal 10 ip, digitsVal decDigitVal 10 f with
      | some a, some b => some (((a : ℤ) * 10 ^ f.length + (b : ℤ), f.length))
      | _, _ => none

/-- Unsigned decimal literal with optional exponent, again as `m / 10 ^ k`. -/
def parseUnsignedDec (cs : List Char) : Option (ℤ × ℕ) :=
  match cs.findIdx? (fun c => c = 'e' || c = 'E') with
  | none => parseMantissa cs
  | some i =>
    match parseMantissa (cs.take i), parseExponent (cs.drop (i + 1)) with
    | some (m, k), some ex =>
      if 0 ≤ ex then some (m * 10 ^ ex.toNat, k) else some (m, k + (-ex).toNat)
    | _, _ => none

/-- `Infinity` or an unsigned decimal literal (negated when `sign` is set);
`nan` otherwise. -/
def finishDec (sign : Bool) (cs : List Char) : JsNum :=
  if cs = "Infinity".toList then (if sign then JsNum.negInf else JsNum.inf)
  else
    match parseUnsignedDec cs with
    | some (m, k) => JsNum.fin (mkRat (if sign then -m else m) (10 ^ k))
    | none => JsNum.nan

/-- The result of JavaScript `Number(s)` for a string `s`. -/
def nonDecimal (digitVal : Char → Option Nat) (base : Nat)
    (rest : List Char) : JsNum :=
  match digitsVal digitVal base rest with
  | some n => JsNum.fin (mkRat (n : ℤ) 1)
  | none => JsNum.nan

def jsNumber (s : String) : JsNum :=
  match trimJs s with
  | [] => JsNum.fin (mkRat 0 1)
  | '0' :: 'x' :: rest => nonDecimal hexDigitVal 16 rest
  | '0' :: 'X' :: rest => nonDecimal hexDigitVal 16 rest
  | '0' :: 'o' :: rest => nonDecimal octDigitVal 8 rest
  | '0' :: 'O' :: rest => nonDecimal octDigitVal 8 rest
  | '0' :: 'b' :: rest => nonDecimal binDigitVal 2 rest
  | '0' :: 'B' :: rest => nonDecimal binDigitVal 2 rest
  | '+' :: rest => finishDec false rest
  | '-' :: rest => finishDec true rest
  | cs => finishDec false cs

/-! ## Storage gateway (Prisma `user` table)

A stored record has the integer primary key `id`, the text `name`, and
possibly further columns (`extra`), which the spec's projection invariant is
about.  `findUnique` is the point lookup `prisma.user.findUnique({where:{id}})`
(the key is whatever JavaScript number the caller passes, hence `JsNum`);
`findMany` is `prisma.user.findMany()`. -/

structure StoredUser where
  id : ℤ
  name : String
  extra : List (String × String)
deriving DecidableEq, Repr

def findUnique (db : List StoredUser) (key : JsNum) : Option StoredUser :=
  db.find? (fun u => JsNum.fin (u.id : ℚ) = key)

def findMany (db : List StoredUser) : List StoredUser := db

/-- The `{id, name}` view returned to clients. -/
structure UserView where
  id : ℤ
  name : String
deriving DecidableEq, Repr

def project (u : StoredUser) : UserView := ⟨u.id, u.name⟩

/-! ## REST handlers (`configureRestRoutes`) -/

inductive RestBody where
  | user : UserView → RestBody
  | users : List UserView → RestBody
  | errorMsg : String → RestBody
deriving DecidableEq, Repr

structure RestResult where
  status : Nat
  body : RestBody
  storageQueried : Bool
deriving DecidableEq, Repr

/-- `GET /users/:id`: `id = Number(req.params.id)`; on `isNaN(id)` respond
400 without touching storage; otherwise `findUnique` and respond 200 with
the `{id, name}` projection or 404. -/
def restGetUser (db : List StoredUser) (idParam : String) : RestResult :=
  let id := jsNumber idParam
  if id = JsNum.nan then
    ⟨400, RestBody.errorMsg "ID inválido", false⟩
  else
    match findUnique db id with
    | some u => ⟨200, RestBody.user ⟨u.id, u.name⟩, true⟩
    | none => ⟨404, RestBody.errorMsg "Usuario no encontrado", true⟩

/-- `GET /users`: `findMany` then map each record to `{id, name}`. -/
def restGetUsers (db : List StoredUser) : RestResult :=
  ⟨200, RestBody.users ((findMany db).map (fun u => ⟨u.id, u.name⟩)), true⟩

example : restGetUser [] "abc" = ⟨400, RestBody.errorMsg "ID inválido", false⟩ := by
  decide

example : jsNumber "1.5" = JsNum.fin (mkRat 3 2) := by decide

example : jsNumber "0x10" = JsNum.fin (mkRat 16 1) := by decide

example : jsNumber "" = JsNum.fin (mkRat 0 1) := by decide

example : jsNumber " 12 " = JsNum.fin (mkRat 12 1) := by decide

example : jsNumber "-2e3" = JsNum.fin (mkRat (-2000) 1) := by decide

example : jsNumber "Infinity" = JsNum.inf := by decide

example : jsNumber "+0x10" = JsNum.nan := by decide

example : restGetUser [⟨1, "Ada", []⟩] "1" =
    ⟨200, RestBody.user ⟨1, "Ada"⟩, true⟩ := by decide

/-! ## CORS origin predicate (`configureCors`)

The callback allows a request when `!origin || allowedOrigins.includes(origin)`.
In JavaScript `origin` is `string | undefined` and `!origin` is true both for
`undefined` (header absent) and for the empty string, so the faithful
embedding of the guard on an `Option String` is below. -/

def allowedOrigins : List String := ["http://example.com", "https://example.com"]

def corsAllow (origin : Option String) : Bool :=
  match origin with
  | none => true
  | some o => o = "" || allowedOrigins.contains o

/-! ## GraphQL resolvers (`configureGraphQL`)

`user: ({id}) => prisma.user.findUnique({where: {id}})` — the schema types
`id` as `Int!`, so the resolver receives an integer.  `users: () =>
prisma.user.findMany()`.  The resolvers return the raw storage records; the
GraphQL executor then applies the query's selection set (`{ id name }`),
modelled by mapping `project` over the resolver result. -/

def gqlUserResolver (db : List StoredUser) (id : ℤ) : Option StoredUser :=
  findUnique db (JsNum.fin (id : ℚ))

def gqlUsersResolver (db : List StoredUser) : List StoredUser := findMany db

/-- Result of executing `{ user(id: <id>) { id name } }`. -/
def gqlUserQuery (db : List StoredUser) (id : ℤ) : Option UserView :=
  (gqlUserResolver db id).map project

/-- Result of executing `{ users { id name } }`. -/
def gqlUsersQuery (db : List StoredUser) : List UserView :=
  (gqlUsersResolver db).map project

/-! ## Request pipeline (`AppServer` constructor)

The constructor registers, in order: the CORS middleware, the JSON body
parser, the REST routes, the GraphQL endpoint, the Swagger UI.  A denied
origin makes the CORS middleware pass an `Error` to its callback, which
aborts the request before any route handler runs. -/

inductive Route where
  | restUser : String → Route
  | restUsers : Route
  | gqlUser : ℤ → Route
  | gqlUsers : Route
deriving DecidableEq, Repr

inductive GqlData where
  | userData : Option UserView → GqlData
  | usersData : List UserView → GqlData
deriving DecidableEq, Repr

inductive ServerOutcome where
  | corsRejection : String → ServerOutcome
  | restResponse : RestResult → ServerOutcome
  | gqlResponse : GqlData → Bool → ServerOutcome
deriving DecidableEq, Repr

def handleRequest (db : List StoredUser) (origin : Option String)
    (route : Route) : ServerOutcome :=
  if corsAllow origin then
    match route with
    | Route.restUser s => ServerOutcome.restResponse (restGetUser db s)
    | Route.restUsers => ServerOutcome.restResponse (restGetUsers db)
    | Route.gqlUser id => ServerOutcome.gqlResponse (GqlData.userData (gqlUserQuery db id)) true
    | Route.gqlUsers => ServerOutcome.gqlResponse (GqlData.usersData (gqlUsersQuery db)) true
  else ServerOutcome.corsRejection "No permitido por CORS"

/-- Did a route handler (REST or GraphQL) run for this outcome? -/
def handlerRan : ServerOutcome → Bool
  | ServerOutcome.corsRejection _ => false
  | _ => true

/-- Was the storage gateway queried while producing this outcome? -/
def outcomeStorageQueried : ServerOutcome → Bool
  | ServerOutcome.corsRejection _ => false
  | ServerOutcome.restResponse r => r.storageQueried
  | ServerOutcome.gqlResponse _ q => q

/-! ## Startup (`start`) and served OpenAPI document (`configureSwagger`) -/

inductive StartOutcome where
  | exited : Nat → StartOutcome
  | listening : Nat → StartOutcome
deriving DecidableEq, Repr

/-- `start(port)`: `await prisma.$connect()` then `app.listen(port)`; a
connection failure is caught and the process exits with code 1. -/
def start (connectOk : Bool) (port : Nat) : StartOutcome :=
  if connectOk then StartOutcome.listening port else StartOutcome.exited 1

/-- The TypeScript signature is `start(port: number = 3000)`. -/
def defaultPort : Nat := 3000

/-- The `responses` object served for `GET /users/{id}` in the hand-written
OpenAPI document: status code and description, in source order. -/
def openApiUsersIdResponses : List (String × String) :=
  [("200", "Usuario encontrado"), ("404", "Usuario no encontrado")]

example : handleRequest [] (some "http://evil.com") Route.restUsers =
    ServerOutcome.corsRejection "No permitido por CORS" := by decide

example : corsAllow (some "https://example.com") = true := by decide

example : corsAllow (some "") = true := by decide

/-! ## Helper lemmas -/

/-- A `findUnique` lookup never matches the key `nan`. -/
theorem findUnique_nan (db : List StoredUser) : findUnique db JsNum.nan = none := by
  simp [findUnique, List.find?_eq_none]

/-- `GET /users/:id` when the parsed id is finite and the lookup succeeds. -/
theorem restGetUser_eq_of_found (db : List StoredUser) (s : String) (q : ℚ)
    (u : StoredUser) (hs : jsNumber s = JsNum.fin q)
    (hu : findUnique db (JsNum.fin q) = some u) :
    restGetUser db s = ⟨200, RestBody.user ⟨u.id, u.name⟩, true⟩ := by
  simp only [restGetUser, hs]
  rw [if_neg (by simp), hu]

/-- `GET /users/:id` when the parsed id is finite and the lookup fails. -/
theorem restGetUser_eq_of_notFound (db : List StoredUser) (s : String) (q : ℚ)
    (hs : jsNumber s = JsNum.fin q)
    (hu : findUnique db (JsNum.fin q) = none) :
    restGetUser db s = ⟨404, RestBody.errorMsg "Usuario no encontrado", true⟩ := by
  simp only [restGetUser, hs]
  rw [if_neg (by simp), hu]

/-! ## Claims -/

/-- C1 (counterexample): the claim says every non-integer path segment —
explicitly including `"1.5"` and `"0x10"` — yields 400 with storage never
queried.  But JavaScript `Number("1.5")` is `1.5` and `Number("0x10")` is
`16`, neither of which is `NaN`, so the handler proceeds to query the
storage gateway for both; for `"1.5"` it responds 404, not 400. -/
theorem restGetUser_nonInteger_counterexample :
    jsNumber "1.5" = JsNum.fin (mkRat 3 2)
    ∧ (restGetUser [] "1.5").storageQueried = true
    ∧ (restGetUser [] "1.5").status = 404
    ∧ jsNumber "0x10" = JsNum.fin (mkRat 16 1)
    ∧ (restGetUser [] "0x10").storageQueried = true := by decide

/-- C1 (amended): `GET /users/:id` responds 400 with an error payload and
never queries storage exactly for path segments whose JavaScript `Number()`
conversion is `NaN` (such as `"abc"`); for every other segment — including
non-integer ones such as `"1.5"` or `"0x10"` — the storage gateway is
queried. -/
theorem restGetUser_storage_guard (db : List StoredUser) (s : String) :
    (jsNumber s = JsNum.nan →
      restGetUser db s = ⟨400, RestBody.errorMsg "ID inválido", false⟩)
    ∧ (jsNumber s ≠ JsNum.nan → (restGetUser db s).storageQueried = true) := by
  constructor
  · intro h
    simp [restGetUser, h]
  · intro h
    simp only [restGetUser]
    rw [if_neg h]
    cases findUnique db (jsNumber s) <;> rfl

/-- C1 (witness for the amended claim at concrete inputs). -/
theorem restGetUser_storage_guard_witness :
    restGetUser [] "abc" = ⟨400, RestBody.errorMsg "ID inválido", false⟩
    ∧ (restGetUser [] "0.5" ).storageQueried = true :=
  ⟨(restGetUser_storage_guard [] "abc").1 (by decide),
   (restGetUser_storage_guard [] "0.5").2 (by decide)⟩

/-- C2 (counterexample): the origin callback allows `!origin ||
allowedOrigins.includes(origin)`; in JavaScript the empty string is falsy,
so a request carrying a present-but-empty `Origin` header is allowed even
though the empty string is neither absent nor one of the two allow-listed
strings. -/
theorem corsAllow_empty_counterexample :
    corsAllow (some "") = true
    ∧ allowedOrigins.contains "" = false
    ∧ (some "" : Option String) ≠ none := by decide

/-- C2 (amended): the origin policy is a pure predicate allowing a request
exactly when its origin is absent, is the empty string, or is string-equal
to one of the two fixed strings `http://example.com` and
`https://example.com`; every other origin is denied (no wildcard,
subdomain, or pattern matching). -/
theorem corsAllow_spec (origin : Option String) :
    corsAllow origin = true ↔
      origin = none ∨ origin = some "" ∨
        origin = some "http://example.com" ∨
        origin = some "https://example.com" := by
  cases origin with
  | none => simp [corsAllow]
  | some o =>
    by_cases h0 : o = ""
    · simp [corsAllow, h0]
    · by_cases h1 : o = "http://example.com"
      · simp [corsAllow, allowedOrigins, h0, h1]
      · by_cases h2 : o = "https://example.com"
        · simp [corsAllow, allowedOrigins, h0, h1, h2]
        · simp [corsAllow, allowedOrigins, h0, h1, h2]

/-- C3: for every integer id present in storage, `GET /users/:id` responds
200 with body exactly the `{id, name}` view of the stored record (extra
stored fields are not included, the body being a bare `UserView`). -/
theorem restGetUser_found (db : List StoredUser) (s : String) (id : ℤ)
    (u : StoredUser) (hs : jsNumber s = JsNum.fin (id : ℚ))
    (hu : findUnique db (JsNum.fin (id : ℚ)) = some u) :
    restGetUser db s = ⟨200, RestBody.user ⟨u.id, u.name⟩, true⟩ :=
  restGetUser_eq_of_found db s (id : ℚ) u hs hu

/-- C3 (witness): a stored record carrying an extra column is served as the
bare `{id, name}` projection. -/
theorem restGetUser_found_witness :
    restGetUser [⟨1, "Ada", [("email", "ada@example.com")]⟩] "1" =
      ⟨200, RestBody.user ⟨1, "Ada"⟩, true⟩ :=
  restGetUser_found [⟨1, "Ada", [("email", "ada@example.com")]⟩] "1" 1
    ⟨1, "Ada", [("email", "ada@example.com")]⟩ (by decide) (by decide)

/-- C4: for every integer id absent from storage, `GET /users/:id` responds
404 with an error payload. -/
theorem restGetUser_notFound (db : List StoredUser) (s : String) (id : ℤ)
    (hs : jsNumber s = JsNum.fin (id : ℚ))
    (hu : findUnique db (JsNum.fin (id : ℚ)) = none) :
    restGetUser db s = ⟨404, RestBody.errorMsg "Usuario no encontrado", true⟩ :=
  restGetUser_eq_of_notFound db s (id : ℚ) hs hu

/-- C4 (witness). -/
theorem restGetUser_notFound_witness :
    restGetUser [⟨1, "Ada", []⟩] "99" =
      ⟨404, RestBody.errorMsg "Usuario no encontrado", true⟩ :=
  restGetUser_notFound [⟨1, "Ada", []⟩] "99" 99 (by decide) (by decide)

/-- C5: for every storage state, `GET /users` responds 200 with a sequence
of the `{id, name}` projections of the stored records, in the gateway's
order; its length equals the number of stored records. -/
theorem restGetUsers_spec (db : List StoredUser) :
    (restGetUsers db).status = 200
    ∧ (restGetUsers db).body = RestBody.users ((findMany db).map project)
    ∧ ((findMany db).map project).length = db.length := by
  exact ⟨rfl, rfl, by simp [findMany]⟩

/-- C6: cross-protocol consistency — when the REST path segment parses to a
stored integer id, `{ user(id) { id name } }` yields exactly the
`{id, name}` view the REST handler serves with status 200, and
`{ users { id name } }` yields exactly the body of `GET /users`. -/
theorem graphql_rest_consistency (db : List StoredUser) (s : String) (id : ℤ)
    (hs : jsNumber s = JsNum.fin (id : ℚ))
    (hpres : (findUnique db (JsNum.fin (id : ℚ))).isSome = true) :
    (∃ v, gqlUserQuery db id = some v
      ∧ restGetUser db s = ⟨200, RestBody.user v, true⟩)
    ∧ (restGetUsers db).body = RestBody.users (gqlUsersQuery db) := by
  constructor
  · match hu : findUnique db (JsNum.fin (id : ℚ)) with
    | none => rw [hu] at hpres; exact absurd hpres (by simp)
    | some u =>
      exact ⟨project u, by simp [gqlUserQuery, gqlUserResolver, hu],
        restGetUser_eq_of_found db s (id : ℚ) u hs hu⟩
  · rfl

/-- C6 (witness). -/
theorem graphql_rest_consistency_witness :
    (∃ v, gqlUserQuery [⟨1, "Ada", []⟩] 1 = some v
      ∧ restGetUser [⟨1, "Ada", []⟩] "1" = ⟨200, RestBody.user v, true⟩)
    ∧ (restGetUsers [⟨1, "Ada", []⟩]).body =
        RestBody.users (gqlUsersQuery [⟨1, "Ada", []⟩]) :=
  graphql_rest_consistency [⟨1, "Ada", []⟩] "1" 1 (by decide) (by decide)

/-- C7: the GraphQL `user` resolver forwards `id` to `findUnique` and
returns its raw result unmodified — `none` (GraphQL null) when the id is
absent, the full stored record when present; no error value exists in its
codomain. -/
theorem gqlUserResolver_raw (db : List StoredUser) (id : ℤ) :
    (findUnique db (JsNum.fin (id : ℚ)) = none → gqlUserResolver db id = none)
    ∧ ∀ u, findUnique db (JsNum.fin (id : ℚ)) = some u →
        gqlUserResolver db id = some u :=
  ⟨fun h => h, fun _ h => h⟩

/-- C7 (witness): absent id gives `none`; present id gives the raw record,
extra stored column included. -/
theorem gqlUserResolver_raw_witness :
    gqlUserResolver [⟨1, "Ada", [("email", "ada@example.com")]⟩] 2 = none
    ∧ gqlUserResolver [⟨1, "Ada", [("email", "ada@example.com")]⟩] 1 =
        some ⟨1, "Ada", [("email", "ada@example.com")]⟩ :=
  ⟨(gqlUserResolver_raw [⟨1, "Ada", [("email", "ada@example.com")]⟩] 2).1
      (by decide),
   (gqlUserResolver_raw [⟨1, "Ada", [("email", "ada@example.com")]⟩] 1).2
      ⟨1, "Ada", [("email", "ada@example.com")]⟩ (by decide)⟩

/-- C8: whenever the origin predicate denies a request, the pipeline
produces the CORS rejection — no REST or GraphQL handler runs and the
storage gateway is never queried for that request. -/
theorem cors_denied_no_handler (db : List StoredUser) (origin : Option String)
    (route : Route) (h : corsAllow origin = false) :
    handleRequest db origin route =
        ServerOutcome.corsRejection "No permitido por CORS"
    ∧ handlerRan (handleRequest db origin route) = false
    ∧ outcomeStorageQueried (handleRequest db origin route) = false := by
  have hr : handleRequest db origin route =
      ServerOutcome.corsRejection "No permitido por CORS" := by
    simp [handleRequest, h]
  exact ⟨hr, by rw [hr]; rfl, by rw [hr]; rfl⟩

/-- C8 (witness): a request from `http://evil.com` is rejected. -/
theorem cors_denied_no_handler_witness :
    handleRequest [⟨1, "Ada", []⟩] (some "http://evil.com") (Route.restUser "1")
        = ServerOutcome.corsRejection "No permitido por CORS"
    ∧ handlerRan (handleRequest [⟨1, "Ada", []⟩] (some "http://evil.com")
        (Route.restUser "1")) = false
    ∧ outcomeStorageQueried (handleRequest [⟨1, "Ada", []⟩]
        (some "http://evil.com") (Route.restUser "1")) = false :=
  cors_denied_no_handler [⟨1, "Ada", []⟩] (some "http://evil.com")
    (Route.restUser "1") (by decide)

/-- C9: on startup, a failed storage connection makes the process exit with
a non-zero status; a successful one binds the listener on the given port,
whose default is 3000. -/
theorem start_spec (port : Nat) :
    (∃ c, start false port = StartOutcome.exited c ∧ c ≠ 0)
    ∧ start true port = StartOutcome.listening port
    ∧ start true defaultPort = StartOutcome.listening 3000 :=
  ⟨⟨1, rfl, one_ne_zero⟩, rfl, rfl⟩

/-- C10: the served OpenAPI document declares only the 200 and 404
responses for `GET /users/{id}`, omitting the 400 response the REST handler
actually produces on a non-numeric path segment. -/
theorem openApi_missing_400 :
    openApiUsersIdResponses.map Prod.fst = ["200", "404"]
    ∧ "400" ∉ openApiUsersIdResponses.map Prod.fst
    ∧ (restGetUser [] "abc").status = 400 := by decide
